/-
  Verification of the sync-orchestration core of plex-servarr-sync
  (src/plex_servarr_webhook.py) against its natural-language specification.

  The Python source is shallowly embedded: pure helpers (normalize_path,
  parse_json_env key-normalization, apply_path_mapping, section resolution)
  become Lean functions on String; the stateful intake/worker pipeline
  (enqueue_sync, sync_worker, _find_plex_item, rclone_vfs_refresh) becomes
  explicit state passing over a SysState record, with the external Plex and
  rclone services modelled as per-attempt / per-round behaviour oracles.
  Wall-clock sleeps, logging and filesystem age checks have no effect on the
  verified state and are elided.
-/
import Mathlib

namespace PlexServarr

/-! ## Python string primitives

Paths handled by the program are ordinary ASCII strings; Python's `str.strip`,
`str.lower`, `str.replace`, `str.rstrip('/')`, `str.lstrip('/')`,
`startswith`, slicing by code points and substring containment are modelled
character-wise on the string's underlying character list (Python indexes and
slices strings by code point). -/

/-- Python `s.strip()`: drop leading and trailing whitespace. -/
def pyStrip (s : String) : String :=
  ⟨((s.data.dropWhile Char.isWhitespace).reverse.dropWhile Char.isWhitespace).reverse⟩

/-- Python `s.replace('\\', '/')`: single-character replacement is a
character-wise map. -/
def pySlashes (s : String) : String :=
  ⟨s.data.map (fun c => if c == '\\' then '/' else c)⟩

/-- Python `s.rstrip('/')`: drop trailing slash characters. -/
def pyRstripSlash (s : String) : String :=
  ⟨(s.data.reverse.dropWhile (· == '/')).reverse⟩

/-- Python `s.lstrip('/')`: drop leading slash characters. -/
def pyLstripSlash (s : String) : String :=
  ⟨s.data.dropWhile (· == '/')⟩

/-- Python `s.lower()` (character-wise, ASCII as used for filesystem paths). -/
def pyLower (s : String) : String :=
  ⟨s.data.map Char.toLower⟩

/-- Python `s.startswith(pre)`. -/
def pyStartsWith (s pre : String) : Bool :=
  pre.data.isPrefixOf s.data

/-- Python `len(s)` (code points). -/
def pyLen (s : String) : Nat :=
  s.data.length

/-- Python slicing `s[n:]` (by code point). -/
def pyDrop (s : String) (n : Nat) : String :=
  ⟨s.data.drop n⟩

/-- Python `sub in s`: substring containment. -/
def isSubstrOf (sub s : String) : Bool :=
  (List.range (pyLen s + 1)).any (fun i => pyStartsWith (pyDrop s i) sub)

/-- The worker's timeout classification: `"timeout" in str(exc).lower()`. -/
def isTimeoutMsg (e : String) : Bool :=
  isSubstrOf "timeout" (pyLower e)

/-! ## Path normalization and mapping (source lines 73-98) -/

/-- `normalize_path(path, is_dir)`: empty (falsy) input maps to `""`;
otherwise trim whitespace, unify backslashes to slashes, strip trailing
slashes, and re-append exactly one slash in directory mode. -/
def normalize_path (path : String) (is_dir : Bool) : String :=
  if path = "" then ""
  else
    let clean := pyRstripSlash (pySlashes (pyStrip path))
    if is_dir then clean ++ "/" else clean

/-- Key normalization performed by `parse_json_env`: every key is passed
through `normalize_path(k, is_dir=False).lower()`; values are untouched.
The Python dict is modelled as an association list in insertion order. -/
def normalize_table (tbl : List (String × String)) : List (String × String) :=
  tbl.map (fun kv => (pyLower (normalize_path kv.1 false), kv.2))

/-- Stable insertion of a key into a length-descending list: the new key goes
before the first strictly shorter key, so equal-length keys keep their
original relative order, matching Python's stable
`sorted(keys, key=len, reverse=True)`. -/
def insertDesc (x : String) : List String → List String
  | [] => [x]
  | y :: ys => if pyLen y < pyLen x then x :: y :: ys else y :: insertDesc x ys

/-- The table's keys sorted by descending length (stable). -/
def sortedKeysDesc (tbl : List (String × String)) : List String :=
  (tbl.map Prod.fst).foldr insertDesc []

/-- Dict lookup `mapping[k]`: the value of the last binding of `k`
(later duplicate keys overwrite earlier ones in a Python dict). -/
def tableVal (tbl : List (String × String)) (k : String) : String :=
  match tbl.reverse.find? (fun kv => kv.1 == k) with
  | some kv => kv.2
  | none => ""

/-- `apply_path_mapping(path, mapping, label, is_dir)`: normalize the input
without a trailing slash, lower-case a comparison copy, scan the keys in
descending length order, and on the first prefix match splice the mapped
value onto the original-case remainder, re-normalizing with the requested
directory mode; no match returns the normalized input. -/
def apply_path_mapping (path : String) (mapping : List (String × String))
    (is_dir : Bool) : String :=
  let orig := normalize_path path false
  let lower := pyLower orig
  match (sortedKeysDesc mapping).find? (fun p => pyStartsWith lower p) with
  | some p => normalize_path (tableVal mapping p ++ pyDrop orig (pyLen p)) is_dir
  | none => normalize_path orig is_dir

/-! ## Data model (source lines 128-175) -/

/-- The configuration tables the intake consumes, as produced by
`parse_json_env` (keys already normalized), plus the rclone enable flag. -/
structure Config where
  path_replacements : List (String × String)
  rclone_path_replacements : List (String × String)
  section_mapping : List (String × String)
  use_rclone : Bool

/-- `SyncTask` (the `queued_at` wall-clock timestamp only feeds the delay
sleep and is elided). Source equality/hash are by `mapped_folder` alone;
here distinctness of whole tasks is tracked structurally and the dedup set
keys on `mapped_folder` strings, as `_in_flight` does. -/
structure SyncTask where
  section_id : String
  raw_path : String
  rclone_host_path : String
  age_check_path : String
  mapped_folder : String
  label : String
deriving DecidableEq

/-- One record of `history.add` (the timestamp and duration are wall-clock
values and are elided). -/
structure HistoryEntry where
  label : String
  path : String
  status : String
  error : String
deriving DecidableEq

/-- The mutable module state: `_in_flight` (set of mapped folders, modelled
as a duplicate-free list), `sync_queue` (FIFO, head = next to dequeue), and
the history ring buffer (newest first; capacity eviction not modelled). -/
structure SysState where
  in_flight : List String
  queue : List SyncTask
  history : List HistoryEntry
deriving DecidableEq

/-! ## Intake: section resolution and enqueue_sync (source lines 389-427) -/

/-- The section lookup inside `enqueue_sync`: lower-case and
trailing-slash-strip the mapped folder, then take the value of the first
key, in descending length order, that is a prefix of it. -/
def resolve_section (tbl : List (String × String)) (mapped_folder : String) :
    Option String :=
  let comp := pyLower (pyRstripSlash mapped_folder)
  match (sortedKeysDesc tbl).find? (fun p => pyStartsWith comp p) with
  | some p => some (tableVal tbl p)
  | none => none

/-- The value returned by `enqueue_sync` (the constant HTTP 200 is elided). -/
inductive EnqueueResult where
  | skipped (reason : String)
  | deduplicated
  | queued (path : String)
deriving DecidableEq

/-- `enqueue_sync(raw_path, label)`: reject empty path; map the path for the
library (directory mode) and, only when rclone is enabled, for rclone (file
mode); resolve the section (a missing or falsy-empty id skips); atomically
dedup against `_in_flight`; otherwise admit a task to the queue. -/
def enqueue_sync (cfg : Config) (raw_path label : String) (st : SysState) :
    EnqueueResult × SysState :=
  if raw_path = "" then (.skipped "empty path", st)
  else
    let mapped_folder := apply_path_mapping raw_path cfg.path_replacements true
    let rclone_path :=
      if cfg.use_rclone then
        apply_path_mapping raw_path cfg.rclone_path_replacements false
      else ""
    match resolve_section cfg.section_mapping mapped_folder with
    | none => (.skipped "no section mapping", st)
    | some sid =>
      if sid = "" then (.skipped "no section mapping", st)
      else if st.in_flight.contains mapped_folder then (.deduplicated, st)
      else
        (.queued mapped_folder,
         { st with
             in_flight := mapped_folder :: st.in_flight,
             queue := st.queue ++
               [{ section_id := sid, raw_path := raw_path,
                  rclone_host_path := rclone_path,
                  age_check_path := mapped_folder,
                  mapped_folder := mapped_folder, label := label }] })

/-! ## Plex connection facade (source lines 181-201) -/

/-- `get_plex()`: return the cached connection if present, else attempt a
connect; a raising constructor leaves the cache empty and yields no
connection. Connections are abstracted to `Unit`. -/
def get_plex (cached : Option Unit) (connect_raises : Bool) : Option Unit :=
  match cached with
  | some c => some c
  | none => if connect_raises then none else some ()

/-! ## Metadata reconciliation loop `_find_plex_item` (source lines 351-382)

The Plex server is external; each lookup round's observable behaviour is an
oracle `RoundBehavior`: what the exact-path query raises or returns, and
whether/what the title search raises or returns. -/

/-- A library item as the loop sees it: `locations` when the `locations`
attribute exists, else the media-part file list. -/
structure PlexItem where
  title : String
  locations : List String
  mediaFiles : List String
deriving DecidableEq

/-- `res.locations if hasattr(res, 'locations') else []`, falling back to
media-part files when that list is empty. -/
def locsOf (it : PlexItem) : List String :=
  if it.locations.isEmpty then it.mediaFiles else it.locations

/-- Behaviour of the external library during one reconciliation round. -/
structure RoundBehavior where
  queryErr : Option String
  queryItems : List PlexItem
  searchErr : Bool
  searchResults : List PlexItem

/-- Outcome of `_find_plex_item`: an item, `None` after all rounds, or a
re-raised timeout-class query error. -/
inductive FindResult where
  | found (it : PlexItem)
  | notFound
  | raised (msg : String)
deriving DecidableEq

/-- One round of `_find_plex_item`: the exact-path query (a timeout-class
error re-raises, any other error falls through), then the title search whose
errors are swallowed; `some` stops the loop, `none` sleeps and continues. -/
def find_round (search_path : String) (r : RoundBehavior) : Option FindResult :=
  let stratB : Option FindResult :=
    if r.searchErr then none
    else
      match r.searchResults.find?
          (fun res => (locsOf res).any (fun loc => isSubstrOf search_path loc)) with
      | some res => some (.found res)
      | none => none
  match r.queryErr with
  | some e => if isTimeoutMsg e then some (.raised e) else stratB
  | none =>
    match r.queryItems with
    | it :: _ => some (.found it)
    | [] => stratB

/-- The `for i in range(6)` loop, with explicit fuel and round index. -/
def find_loop (search_path : String) (rounds : Nat → RoundBehavior) :
    Nat → Nat → FindResult
  | 0, _ => .notFound
  | fuel + 1, i =>
    match find_round search_path (rounds i) with
    | some res => res
    | none => find_loop search_path rounds fuel (i + 1)

/-- `_find_plex_item(plex, library, task)` over the round oracle. -/
def find_plex_item (search_path : String) (rounds : Nat → RoundBehavior) :
    FindResult :=
  find_loop search_path rounds 6 0

/-! ## The rescan-with-retry loop (source lines 301-327) -/

/-- Behaviour of the external library during one scan attempt: an error
raised by `sectionByID`/`update` (if any), the per-round reconciliation
behaviour, and an error raised by `item.analyze()` (if any). -/
structure AttemptBehavior where
  updateErr : Option String
  rounds : Nat → RoundBehavior
  analyzeErr : Option String

/-- How one iteration of the attempt loop ends: an exception reached the
`except` handler, or the `break` was reached (with or without an item). -/
inductive BodyResult where
  | raised (msg : String)
  | complete (found : Bool)
deriving DecidableEq

/-- One iteration of the `for attempt in range(1, 4)` body: section lookup
and targeted `update`, then `_find_plex_item`, then `analyze()` on a found
item; any raised error (including from `analyze`) escapes to the handler. -/
def run_attempt (search_path : String) (b : AttemptBehavior) : BodyResult :=
  match b.updateErr with
  | some e => .raised e
  | none =>
    match find_plex_item search_path b.rounds with
    | .raised e => .raised e
    | .found _ =>
      match b.analyzeErr with
      | some e => .raised e
      | none => .complete true
    | .notFound => .complete false

/-- The attempt loop: on a raised timeout-class error with attempts left,
invalidate/reconnect and retry; otherwise re-raise. Returns the number of
attempts made and the re-raised error, if any. -/
def scan_loop (search_path : String) (behav : Nat → AttemptBehavior) :
    Nat → Nat → Nat × Option String
  | 0, attempt => (attempt - 1, none)
  | fuel + 1, attempt =>
    match run_attempt search_path (behav attempt) with
    | .complete _ => (attempt, none)
    | .raised e =>
      if isTimeoutMsg e ∧ attempt < 3 then scan_loop search_path behav fuel (attempt + 1)
      else (attempt, some e)

/-- The whole `for attempt in range(1, 4)` loop: fuel 3, first attempt 1. -/
def plex_scan (search_path : String) (behav : Nat → AttemptBehavior) :
    Nat × Option String :=
  scan_loop search_path behav 3 1

/-! ## Rclone VFS refresh (source lines 223-257) -/

/-- Observable outcome of one HTTP POST to the rclone remote: a raised
`requests.RequestException`, or a response with its success flag. -/
inductive RcOutcome where
  | exc (msg : String)
  | resp (ok : Bool)

/-- A request issued to the rclone remote control endpoint. -/
inductive RcloneCall where
  | forget (dir : String)
  | refresh (dir : String)
deriving DecidableEq

/-- The rclone configuration values the refresh step reads. -/
structure RcloneCfg where
  use_rclone : Bool
  rc_url : String
  mount_root : String

/-- The mount-root translation inside `rclone_vfs_refresh`: strip the root
from a path under it, otherwise pass the (trailing-slash-stripped) path
through with a logged warning. -/
def rclone_target (mount_root host_path : String) : String :=
  let full := pyRstripSlash host_path
  let root := pyRstripSlash mount_root
  if root ≠ "" ∧ pyStartsWith full root then pyLstripSlash (pyDrop full (pyLen root))
  else full

/-- `rclone_vfs_refresh(host_path, label)`: no-op when disabled or when no
remote URL is configured; otherwise POST `vfs/forget` then (unless forget
raised) `vfs/refresh`. All outcomes are logged and swallowed, so the result
is only the list of calls issued — the function raises nothing. -/
def rclone_vfs_refresh (cfg : RcloneCfg) (forgetOut refreshOut : RcOutcome)
    (host_path : String) : List RcloneCall :=
  if cfg.use_rclone = false then []
  else if cfg.rc_url = "" then []
  else
    let target := rclone_target cfg.mount_root host_path
    match forgetOut with
    | .exc _ => [.forget target]
    | .resp _ => [.forget target, .refresh target]

/-! ## The sync worker (source lines 264-346) -/

/-- External effects of one worker iteration: the rclone calls issued and
the number of Plex scan attempts made. -/
structure WorkerEffects where
  rcloneCalls : List RcloneCall
  scanAttempts : Nat
deriving DecidableEq

/-- `sync_queue.get()`: pop the task at the head of the queue. While the
popped task is being processed it is no longer in the queue but still in
`_in_flight`. -/
def worker_begin (st : SysState) : Option SyncTask × SysState :=
  match st.queue with
  | [] => (none, st)
  | t :: rest => (some t, { st with queue := rest })

/-- Processing of one dequeued task (the `try`/`except`/`finally` body):
delay and age gates only sleep; then the rclone refresh; then, if a Plex
connection is available, the retried scan; `finally` discards the task's
`mapped_folder` from `_in_flight` and prepends a history entry whose status
is `error` exactly when an exception escaped the attempt loop. -/
def worker_finish (rcfg : RcloneCfg) (forgetOut refreshOut : RcOutcome)
    (plexAvailable : Bool) (behav : Nat → AttemptBehavior)
    (task : SyncTask) (st : SysState) : SysState × WorkerEffects :=
  let calls := rclone_vfs_refresh rcfg forgetOut refreshOut task.rclone_host_path
  let scan := if plexAvailable then plex_scan (pyRstripSlash task.mapped_folder) behav
              else (0, none)
  let status := match scan.2 with | some _ => "error" | none => "ok"
  ({ in_flight := st.in_flight.erase task.mapped_folder,
     queue := st.queue,
     history := { label := task.label, path := task.mapped_folder,
                  status := status, error := scan.2.getD "" } :: st.history },
   { rcloneCalls := calls, scanAttempts := scan.1 })

/-- One full worker iteration: dequeue (if anything is queued) and process. -/
def sync_worker_step (rcfg : RcloneCfg) (forgetOut refreshOut : RcOutcome)
    (plexAvailable : Bool) (behav : Nat → AttemptBehavior)
    (st : SysState) : SysState × WorkerEffects :=
  match worker_begin st with
  | (none, st1) => (st1, { rcloneCalls := [], scanAttempts := 0 })
  | (some task, st1) => worker_finish rcfg forgetOut refreshOut plexAvailable behav task st1

/-! ## Concrete fixtures used to evaluate the model -/

/-- A path-replacement table as loaded from `PATH_REPLACEMENTS`. -/
def tblMain : List (String × String) := normalize_table [("/data", "/media")]

/-- A section-mapping table as loaded from `SECTION_MAPPING`. -/
def secMain : List (String × String) := normalize_table [("/media", "42")]

/-- A configuration with rclone disabled. -/
def cfgMain : Config := ⟨tblMain, [], secMain, false⟩

/-- A reconciliation round in which the library reports nothing. -/
def rb0 : RoundBehavior := ⟨none, [], false, []⟩

/-- Library behaviour in which every call succeeds and finds nothing. -/
def behav0 : Nat → AttemptBehavior := fun _ => ⟨none, fun _ => rb0, none⟩

/-- Rclone configuration with the integration disabled. -/
def rcfg0 : RcloneCfg := ⟨false, "", ""⟩

/-- A task for the mapped folder `/media/TV/Show/`, section `42`. -/
def taskMain : SyncTask :=
  ⟨"42", "/data/TV/Show", "", "/media/TV/Show/", "/media/TV/Show/", "SONARR"⟩

/-- Library behaviour that raises a timeout-class error on every attempt. -/
def behavTimeout : Nat → AttemptBehavior :=
  fun _ => ⟨some "Connection timeout", fun _ => rb0, none⟩

/-- An item whose known location is under the target folder. -/
def itemShow : PlexItem := ⟨"Show", ["/media/TV/Show/Season 1/ep.mkv"], []⟩

/-- A round in which the exact-path query finds nothing but the title
search returns `itemShow`. -/
def roundTitleHit : RoundBehavior := ⟨none, [], false, [itemShow]⟩

/-- Attempt behaviour: query misses, title search hits, analyze succeeds. -/
def behavTitleHit : Nat → AttemptBehavior :=
  fun _ => ⟨none, fun _ => roundTitleHit, none⟩

/-- A round in which the exact-path query returns `itemShow` directly. -/
def roundQueryHit : RoundBehavior := ⟨none, [itemShow], false, []⟩

/-- Attempt behaviour: the query finds the item but `analyze()` raises a
non-timeout error. -/
def behavAnalyzeBoom : Nat → AttemptBehavior :=
  fun _ => ⟨none, fun _ => roundQueryHit, some "analyze failed"⟩

/-! ## General lemmas about the embedding -/

theorem normalize_path_nonempty_dir (s : String) (h : s ≠ "") :
    normalize_path s true = normalize_path s false ++ "/" := by
  simp [normalize_path, h]

theorem enqueue_sync_queued (cfg : Config) (raw lbl f sid : String) (st : SysState)
    (hraw : raw ≠ "")
    (hmap : apply_path_mapping raw cfg.path_replacements true = f)
    (hres : resolve_section cfg.section_mapping f = some sid)
    (hsid : sid ≠ "")
    (hni : st.in_flight.contains f = false) :
    enqueue_sync cfg raw lbl st =
      (.queued f,
       ⟨f :: st.in_flight,
        st.queue ++
          [⟨sid, raw,
            (if cfg.use_rclone then
               apply_path_mapping raw cfg.rclone_path_replacements false
             else ""), f, f, lbl⟩],
        st.history⟩) := by
  simp only [enqueue_sync, if_neg hraw, hmap, hres, hsid, if_neg hsid, hni]
  rfl

theorem enqueue_sync_dedup (cfg : Config) (raw lbl f sid : String) (st : SysState)
    (hraw : raw ≠ "")
    (hmap : apply_path_mapping raw cfg.path_replacements true = f)
    (hres : resolve_section cfg.section_mapping f = some sid)
    (hsid : sid ≠ "")
    (hni : st.in_flight.contains f = true) :
    enqueue_sync cfg raw lbl st = (.deduplicated, st) := by
  simp only [enqueue_sync, if_neg hraw, hmap, hres, hsid, if_neg hsid, hni]
  rfl

theorem contains_cons_false (f g : String) (l : List String)
    (h : l.contains g = false) (hne : g ≠ f) : (f :: l).contains g = false := by
  simp only [List.contains, List.elem_eq_mem, decide_eq_false_iff_not] at h ⊢
  simp [hne, h]

theorem contains_erase_self (l : List String) (a : String) (h : l.Nodup) :
    (l.erase a).contains a = false := by
  simp only [List.contains, List.elem_eq_mem, decide_eq_false_iff_not]
  exact h.not_mem_erase

theorem sync_worker_step_run (rcfg : RcloneCfg) (fo ro : RcOutcome) (pa : Bool)
    (behav : Nat → AttemptBehavior) (task : SyncTask) (q : List SyncTask)
    (infl : List String) (hist : List HistoryEntry) :
    ∃ entry : HistoryEntry,
      (sync_worker_step rcfg fo ro pa behav ⟨infl, task :: q, hist⟩).1 =
        ⟨infl.erase task.mapped_folder, q, entry :: hist⟩ ∧
      entry.label = task.label ∧ entry.path = task.mapped_folder :=
  ⟨{ label := task.label, path := task.mapped_folder,
     status :=
       match (if pa then plex_scan (pyRstripSlash task.mapped_folder) behav
              else (0, none)).2 with
       | some _ => "error"
       | none => "ok",
     error :=
       (if pa then plex_scan (pyRstripSlash task.mapped_folder) behav
        else (0, none)).2.getD "" },
   rfl, rfl, rfl⟩

/-! ## Claims -/

/-- C1 counterexample: for the table `{"/a/": "/x/", "/a/b/": "/y/"}` loaded
through `parse_json_env`'s key normalization, mapping `/a/b/c` in directory
mode does not return `/y/c/`: key normalization strips the key to `/a/b`, so
the spliced result keeps both the value's trailing and the remainder's
leading separator. -/
theorem c1_counterexample :
    apply_path_mapping "/a/b/c" (normalize_table [("/a/", "/x/"), ("/a/b/", "/y/")]) true
      ≠ "/y/c/" := by decide

/-- C1 (amended): the longest matching source prefix (`/a/b`, from
normalizing `/a/b/`) wins, and the result is exactly `/y//c/` — derived from
the `/y/` replacement, not from `/x/`. -/
theorem c1_longest_prefix_wins :
    apply_path_mapping "/a/b/c" (normalize_table [("/a/", "/x/"), ("/a/b/", "/y/")]) true
      = "/y//c/" ∧
    pyStartsWith
      (apply_path_mapping "/a/b/c" (normalize_table [("/a/", "/x/"), ("/a/b/", "/y/")]) true)
      "/x" = false := by decide

/-- C9 counterexample: for the empty path and the empty table both modes
return `""`, so the directory-mode result is not the file-mode result with a
trailing separator appended. -/
theorem c9_counterexample :
    apply_path_mapping "" [] true ≠ apply_path_mapping "" [] false ++ "/" := by decide

/-- C9 (amended): for every path and mapping table, either the
directory-mode result is the file-mode result with a trailing separator
appended, or the input normalizes to nothing and both results are empty. -/
theorem c9_dir_mode_trailing_sep (path : String) (tbl : List (String × String)) :
    apply_path_mapping path tbl true = apply_path_mapping path tbl false ++ "/" ∨
    (apply_path_mapping path tbl true = "" ∧ apply_path_mapping path tbl false = "") := by
  have key : ∀ s : String,
      (normalize_path s true = normalize_path s false ++ "/") ∨
      (normalize_path s true = "" ∧ normalize_path s false = "") := by
    intro s
    by_cases hs : s = ""
    · right; simp [normalize_path, hs]
    · left; exact normalize_path_nonempty_dir s hs
  simp only [apply_path_mapping]
  cases (sortedKeysDesc tbl).find?
      (fun p => pyStartsWith (pyLower (normalize_path path false)) p) with
  | some p => exact key _
  | none => exact key _

/-- C2: dedup lifecycle. From a state with an empty queue and the mapped
folder `f` not in flight, a first admission for a raw path mapping to `f`
is queued; a second admission for another raw path mapping to `f` while the
task is still queued — and likewise while it is being processed (after the
worker dequeued it but before finalization) — is deduplicated with the state
unchanged; and after the worker finalizes the task (whatever the scan
outcome), a third admission for `f` is queued again. -/
theorem c2_dedup_lifecycle
    (cfg : Config) (p1 p2 p3 lbl1 lbl2 lbl3 : String)
    (infl : List String) (hist : List HistoryEntry)
    (rcfg : RcloneCfg) (fo ro : RcOutcome) (pa : Bool) (behav : Nat → AttemptBehavior)
    (f sid : String)
    (h1 : p1 ≠ "") (h2 : p2 ≠ "") (h3 : p3 ≠ "")
    (hm1 : apply_path_mapping p1 cfg.path_replacements true = f)
    (hm2 : apply_path_mapping p2 cfg.path_replacements true = f)
    (hm3 : apply_path_mapping p3 cfg.path_replacements true = f)
    (hres : resolve_section cfg.section_mapping f = some sid)
    (hsid : sid ≠ "")
    (hfresh : infl.contains f = false) :
    (enqueue_sync cfg p1 lbl1 ⟨infl, [], hist⟩).1 = .queued f ∧
    enqueue_sync cfg p2 lbl2 (enqueue_sync cfg p1 lbl1 ⟨infl, [], hist⟩).2
      = (.deduplicated, (enqueue_sync cfg p1 lbl1 ⟨infl, [], hist⟩).2) ∧
    (enqueue_sync cfg p2 lbl2
        (worker_begin (enqueue_sync cfg p1 lbl1 ⟨infl, [], hist⟩).2).2).1
      = .deduplicated ∧
    (enqueue_sync cfg p3 lbl3
        (sync_worker_step rcfg fo ro pa behav
          (enqueue_sync cfg p1 lbl1 ⟨infl, [], hist⟩).2).1).1
      = .queued f := by
  have hq1 := enqueue_sync_queued cfg p1 lbl1 f sid ⟨infl, [], hist⟩ h1 hm1 hres hsid hfresh
  have hcons : (f :: infl).contains f = true := by simp
  simp only [hq1, List.nil_append]
  refine ⟨by trivial, ?_, ?_, ?_⟩
  · exact enqueue_sync_dedup cfg p2 lbl2 f sid _ h2 hm2 hres hsid hcons
  · have hd := enqueue_sync_dedup cfg p2 lbl2 f sid ⟨f :: infl, [], hist⟩ h2 hm2 hres hsid hcons
    rw [show (worker_begin
        (⟨f :: infl,
          [⟨sid, p1,
            (if cfg.use_rclone then
               apply_path_mapping p1 cfg.rclone_path_replacements false
             else ""), f, f, lbl1⟩], hist⟩ : SysState)).2 = ⟨f :: infl, [], hist⟩ from rfl, hd]
  · obtain ⟨entry, hstep, -, -⟩ :=
      sync_worker_step_run rcfg fo ro pa behav
        ⟨sid, p1,
          (if cfg.use_rclone then
             apply_path_mapping p1 cfg.rclone_path_replacements false
           else ""), f, f, lbl1⟩ [] (f :: infl) hist
    rw [hstep]
    have hq3 := enqueue_sync_queued cfg p3 lbl3 f sid
      ⟨infl, [], entry :: hist⟩ h3 hm3 hres hsid hfresh
    simp only [List.erase_cons_head]
    rw [hq3]

/-- C2 witness: two raw spellings of the same folder and a third admission
after the worker finalized the first task. -/
theorem c2_witness :
    (enqueue_sync cfgMain "/data/TV/Show" "SONARR" ⟨[], [], []⟩).1
      = .queued "/media/TV/Show/" ∧
    enqueue_sync cfgMain "/data/TV/Show/" "RADARR"
        (enqueue_sync cfgMain "/data/TV/Show" "SONARR" ⟨[], [], []⟩).2
      = (.deduplicated, (enqueue_sync cfgMain "/data/TV/Show" "SONARR" ⟨[], [], []⟩).2) ∧
    (enqueue_sync cfgMain "/data/TV/Show/" "RADARR"
        (worker_begin (enqueue_sync cfgMain "/data/TV/Show" "SONARR" ⟨[], [], []⟩).2).2).1
      = .deduplicated ∧
    (enqueue_sync cfgMain "/data/TV/Show" "MANUAL"
        (sync_worker_step rcfg0 (.resp true) (.resp true) true behav0
          (enqueue_sync cfgMain "/data/TV/Show" "SONARR" ⟨[], [], []⟩).2).1).1
      = .queued "/media/TV/Show/" :=
  c2_dedup_lifecycle cfgMain "/data/TV/Show" "/data/TV/Show/" "/data/TV/Show"
    "SONARR" "RADARR" "MANUAL" [] [] rcfg0 (.resp true) (.resp true) true behav0
    "/media/TV/Show/" "42" (by decide) (by decide) (by decide)
    (by decide) (by decide) (by decide) (by decide) (by decide) (by decide)

/-- C6: admission rejections. An empty raw path is skipped with reason
`empty path`; a non-empty raw path whose mapped folder matches no
section-mapping key is skipped with reason `no section mapping`; in both
cases the state (queue, in-flight set, history) is returned unchanged. -/
theorem c6_admission_rejections (cfg : Config) (lbl raw : String) (st : SysState)
    (hraw : raw ≠ "")
    (hres : resolve_section cfg.section_mapping
        (apply_path_mapping raw cfg.path_replacements true) = none) :
    enqueue_sync cfg "" lbl st = (.skipped "empty path", st) ∧
    enqueue_sync cfg raw lbl st = (.skipped "no section mapping", st) := by
  constructor
  · rfl
  · simp only [enqueue_sync, if_neg hraw, hres]

/-- C6 witness: concrete evaluation at an empty section map. -/
theorem c6_witness :
    enqueue_sync ⟨tblMain, [], [], false⟩ "" "SONARR" ⟨[], [], []⟩
      = (.skipped "empty path", ⟨[], [], []⟩) ∧
    enqueue_sync ⟨tblMain, [], [], false⟩ "/data/TV/Show" "SONARR" ⟨[], [], []⟩
      = (.skipped "no section mapping", ⟨[], [], []⟩) :=
  c6_admission_rejections ⟨tblMain, [], [], false⟩ "SONARR" "/data/TV/Show"
    ⟨[], [], []⟩ (by decide) (by decide)

/-- C10: dedup is case-sensitive on the mapped path. Two non-empty raw paths
that agree after lower-casing but whose mapped folders are distinct (the
remainder past the matched prefix keeps its original case) are both admitted
as separate queued tasks: neither admission is deduplicated and the queue
grows by two. -/
theorem c10_case_sensitive_dedup
    (cfg : Config) (p1 p2 lbl1 lbl2 : String)
    (infl : List String) (hist : List HistoryEntry)
    (f1 f2 s1 s2 : String)
    (hne1 : p1 ≠ "") (hne2 : p2 ≠ "")
    (hcase : pyLower p1 = pyLower p2)
    (hm1 : apply_path_mapping p1 cfg.path_replacements true = f1)
    (hm2 : apply_path_mapping p2 cfg.path_replacements true = f2)
    (hdiff : f1 ≠ f2)
    (hr1 : resolve_section cfg.section_mapping f1 = some s1) (hs1 : s1 ≠ "")
    (hr2 : resolve_section cfg.section_mapping f2 = some s2) (hs2 : s2 ≠ "")
    (hf1 : infl.contains f1 = false) (hf2 : infl.contains f2 = false) :
    (enqueue_sync cfg p1 lbl1 ⟨infl, [], hist⟩).1 = .queued f1 ∧
    (enqueue_sync cfg p2 lbl2 (enqueue_sync cfg p1 lbl1 ⟨infl, [], hist⟩).2).1
      = .queued f2 ∧
    (enqueue_sync cfg p2 lbl2 (enqueue_sync cfg p1 lbl1 ⟨infl, [], hist⟩).2).2.queue.length
      = 2 := by
  have hq1 := enqueue_sync_queued cfg p1 lbl1 f1 s1 ⟨infl, [], hist⟩ hne1 hm1 hr1 hs1 hf1
  have hc2 : (f1 :: infl).contains f2 = false :=
    contains_cons_false f1 f2 infl hf2 (Ne.symm hdiff)
  have hq2 := enqueue_sync_queued cfg p2 lbl2 f2 s2
    ⟨f1 :: infl,
     [⟨s1, p1,
       (if cfg.use_rclone then
          apply_path_mapping p1 cfg.rclone_path_replacements false
        else ""), f1, f1, lbl1⟩], hist⟩ hne2 hm2 hr2 hs2 hc2
  simp only [hq1, List.nil_append]
  refine ⟨by trivial, ?_, ?_⟩
  · rw [hq2]
  · rw [hq2]
    simp

/-- C10 witness: `/data/TV/Show` and `/data/TV/SHOW` lower-case equal but map
to distinct folders, and both are queued. -/
theorem c10_witness :
    (enqueue_sync cfgMain "/data/TV/Show" "SONARR" ⟨[], [], []⟩).1
      = .queued "/media/TV/Show/" ∧
    (enqueue_sync cfgMain "/data/TV/SHOW" "RADARR"
        (enqueue_sync cfgMain "/data/TV/Show" "SONARR" ⟨[], [], []⟩).2).1
      = .queued "/media/TV/SHOW/" ∧
    (enqueue_sync cfgMain "/data/TV/SHOW" "RADARR"
        (enqueue_sync cfgMain "/data/TV/Show" "SONARR" ⟨[], [], []⟩).2).2.queue.length
      = 2 :=
  c10_case_sensitive_dedup cfgMain "/data/TV/Show" "/data/TV/SHOW" "SONARR" "RADARR"
    [] [] "/media/TV/Show/" "/media/TV/SHOW/" "42" "42"
    (by decide) (by decide) (by decide) (by decide) (by decide) (by decide)
    (by decide) (by decide) (by decide) (by decide) (by decide) (by decide)

/-- C3: retry exhaustion. If every scan attempt raises a timeout-class
error, the worker makes exactly 3 attempts, the task is recorded in history
with status `error` and the message of the last raised error, and the mapped
folder is released from the in-flight set. -/
theorem c3_retry_exhaustion
    (rcfg : RcloneCfg) (fo ro : RcOutcome) (behav : Nat → AttemptBehavior)
    (e : Nat → String) (task : SyncTask) (q : List SyncTask)
    (infl : List String) (hist : List HistoryEntry)
    (herr : ∀ a, 1 ≤ a → a ≤ 3 →
      run_attempt (pyRstripSlash task.mapped_folder) (behav a) = .raised (e a))
    (htime : ∀ a, isTimeoutMsg (e a) = true)
    (hnd : infl.Nodup) :
    plex_scan (pyRstripSlash task.mapped_folder) behav = (3, some (e 3)) ∧
    (sync_worker_step rcfg fo ro true behav ⟨infl, task :: q, hist⟩).2.scanAttempts = 3 ∧
    (sync_worker_step rcfg fo ro true behav ⟨infl, task :: q, hist⟩).1.history.head?
      = some ⟨task.label, task.mapped_folder, "error", e 3⟩ ∧
    (sync_worker_step rcfg fo ro true behav ⟨infl, task :: q, hist⟩).1.in_flight.contains
      task.mapped_folder = false := by
  have e1 := herr 1 (by norm_num) (by norm_num)
  have e2 := herr 2 (by norm_num) (by norm_num)
  have e3 := herr 3 (by norm_num) (by norm_num)
  have hscan : plex_scan (pyRstripSlash task.mapped_folder) behav = (3, some (e 3)) := by
    simp [plex_scan, scan_loop, e1, e2, e3, htime 1, htime 2, htime 3]
  refine ⟨hscan, ?_, ?_, ?_⟩
  · simp [sync_worker_step, worker_begin, worker_finish, hscan]
  · simp [sync_worker_step, worker_begin, worker_finish, hscan]
  · simp only [sync_worker_step, worker_begin, worker_finish]
    exact contains_erase_self infl task.mapped_folder hnd

/-- C3 witness: a connection that raises `Connection timeout` on every
attempt, evaluated on the `/media/TV/Show/` task. -/
theorem c3_witness :
    plex_scan (pyRstripSlash taskMain.mapped_folder) behavTimeout
      = (3, some "Connection timeout") ∧
    (sync_worker_step rcfg0 (.resp true) (.resp true) true behavTimeout
        ⟨["/media/TV/Show/"], [taskMain], []⟩).2.scanAttempts = 3 ∧
    (sync_worker_step rcfg0 (.resp true) (.resp true) true behavTimeout
        ⟨["/media/TV/Show/"], [taskMain], []⟩).1.history.head?
      = some ⟨"SONARR", "/media/TV/Show/", "error", "Connection timeout"⟩ ∧
    (sync_worker_step rcfg0 (.resp true) (.resp true) true behavTimeout
        ⟨["/media/TV/Show/"], [taskMain], []⟩).1.in_flight.contains
      "/media/TV/Show/" = false := by
  refine c3_retry_exhaustion rcfg0 (.resp true) (.resp true) behavTimeout
    (fun _ => "Connection timeout") taskMain [] ["/media/TV/Show/"] []
    (fun _ _ _ => rfl) ?_ (by decide)
  intro a
  show isTimeoutMsg "Connection timeout" = true
  decide

/-- C4 counterexample: the reconciliation finds the item but `analyze()`
raises a non-timeout error; contrary to the claim, the exception escapes the
attempt body and the task is recorded with status `error`, not `ok`. -/
theorem c4_counterexample :
    find_plex_item (pyRstripSlash "/media/TV/Show/") (behavAnalyzeBoom 1).rounds
      = .found itemShow ∧
    (behavAnalyzeBoom 1).analyzeErr = some "analyze failed" ∧
    (sync_worker_step rcfg0 (.resp true) (.resp true) true behavAnalyzeBoom
        ⟨["/media/TV/Show/"], [taskMain], []⟩).1.history.head?
      ≠ some ⟨"SONARR", "/media/TV/Show/", "ok", ""⟩ ∧
    (sync_worker_step rcfg0 (.resp true) (.resp true) true behavAnalyzeBoom
        ⟨["/media/TV/Show/"], [taskMain], []⟩).1.history.head?
      = some ⟨"SONARR", "/media/TV/Show/", "error", "analyze failed"⟩ := by
  decide

/-- C4 (amended): when the reconciliation finds an item and `analyze()`
raises, the error escapes the attempt body; if it is not timeout-class it
ends the attempt loop at once and the task is recorded with status `error`
and that message. -/
theorem c4_analyze_error_fails_task
    (rcfg : RcloneCfg) (fo ro : RcOutcome) (behav : Nat → AttemptBehavior)
    (b : AttemptBehavior) (it : PlexItem) (e : String)
    (task : SyncTask) (q : List SyncTask)
    (infl : List String) (hist : List HistoryEntry)
    (hb : behav 1 = b)
    (hupd : b.updateErr = none)
    (hfind : find_plex_item (pyRstripSlash task.mapped_folder) b.rounds = .found it)
    (hana : b.analyzeErr = some e)
    (hnt : isTimeoutMsg e = false) :
    run_attempt (pyRstripSlash task.mapped_folder) b = .raised e ∧
    (sync_worker_step rcfg fo ro true behav ⟨infl, task :: q, hist⟩).1.history.head?
      = some ⟨task.label, task.mapped_folder, "error", e⟩ := by
  have hra : run_attempt (pyRstripSlash task.mapped_folder) b = .raised e := by
    simp [run_attempt, hupd, hfind, hana]
  have hscan : plex_scan (pyRstripSlash task.mapped_folder) behav = (1, some e) := by
    simp [plex_scan, scan_loop, hb, hra, hnt]
  exact ⟨hra, by simp [sync_worker_step, worker_begin, worker_finish, hscan]⟩

/-- C4 amended-claim witness: concrete evaluation of the analyze-failure
path. -/
theorem c4_witness :
    run_attempt (pyRstripSlash taskMain.mapped_folder) (behavAnalyzeBoom 1)
      = .raised "analyze failed" ∧
    (sync_worker_step rcfg0 (.resp true) (.resp true) true behavAnalyzeBoom
        ⟨["/media/TV/Show/"], [taskMain], []⟩).1.history.head?
      = some ⟨"SONARR", "/media/TV/Show/", "error", "analyze failed"⟩ :=
  c4_analyze_error_fails_task rcfg0 (.resp true) (.resp true) behavAnalyzeBoom
    (behavAnalyzeBoom 1) itemShow "analyze failed" taskMain [] ["/media/TV/Show/"] []
    rfl rfl (by decide) rfl (by decide)

/-- C5: the reconciliation outcome never fails the task. If the exact-path
query returns no item but the title search returns an item whose known
locations contain the target path, that item is accepted and the task
records status `ok`; and if no round finds anything, the loop returns
`notFound` after its 6 rounds and the task still records status `ok`. -/
theorem c5_reconciliation_never_fails
    (rcfg : RcloneCfg) (fo ro : RcOutcome)
    (behavA behavB : Nat → AttemptBehavior) (bA bB : AttemptBehavior) (it : PlexItem)
    (task : SyncTask) (q : List SyncTask) (infl : List String) (hist : List HistoryEntry)
    (ha0 : behavA 1 = bA) (ha1 : bA.updateErr = none) (ha2 : bA.analyzeErr = none)
    (ha3 : (bA.rounds 0).queryErr = none)
    (ha4 : (bA.rounds 0).queryItems = [])
    (ha5 : (bA.rounds 0).searchErr = false)
    (ha6 : (bA.rounds 0).searchResults.find?
        (fun res => (locsOf res).any
          (fun loc => isSubstrOf (pyRstripSlash task.mapped_folder) loc)) = some it)
    (hb0 : behavB 1 = bB) (hb1 : bB.updateErr = none)
    (hb2 : ∀ i, i < 6 →
      find_round (pyRstripSlash task.mapped_folder) (bB.rounds i) = none) :
    find_plex_item (pyRstripSlash task.mapped_folder) bA.rounds = .found it ∧
    (sync_worker_step rcfg fo ro true behavA ⟨infl, task :: q, hist⟩).1.history.head?
      = some ⟨task.label, task.mapped_folder, "ok", ""⟩ ∧
    find_plex_item (pyRstripSlash task.mapped_folder) bB.rounds = .notFound ∧
    (sync_worker_step rcfg fo ro true behavB ⟨infl, task :: q, hist⟩).1.history.head?
      = some ⟨task.label, task.mapped_folder, "ok", ""⟩ := by
  have hfA : find_plex_item (pyRstripSlash task.mapped_folder) bA.rounds = .found it := by
    simp [find_plex_item, find_loop, find_round, ha3, ha4, ha5, ha6]
  have hfB : find_plex_item (pyRstripSlash task.mapped_folder) bB.rounds = .notFound := by
    simp [find_plex_item, find_loop, hb2 0 (by norm_num), hb2 1 (by norm_num),
      hb2 2 (by norm_num), hb2 3 (by norm_num), hb2 4 (by norm_num), hb2 5 (by norm_num)]
  have hraA : run_attempt (pyRstripSlash task.mapped_folder) bA = .complete true := by
    simp [run_attempt, ha1, hfA, ha2]
  have hscanA : plex_scan (pyRstripSlash task.mapped_folder) behavA = (1, none) := by
    simp [plex_scan, scan_loop, ha0, hraA]
  have hraB : run_attempt (pyRstripSlash task.mapped_folder) bB = .complete false := by
    simp [run_attempt, hb1, hfB]
  have hscanB : plex_scan (pyRstripSlash task.mapped_folder) behavB = (1, none) := by
    simp [plex_scan, scan_loop, hb0, hraB]
  exact ⟨hfA, by simp [sync_worker_step, worker_begin, worker_finish, hscanA],
         hfB, by simp [sync_worker_step, worker_begin, worker_finish, hscanB]⟩

/-- C5 witness: a round where only the title search hits, and a behaviour
where nothing is ever found; both record status `ok`. -/
theorem c5_witness :
    find_plex_item (pyRstripSlash taskMain.mapped_folder) (behavTitleHit 1).rounds
      = .found itemShow ∧
    (sync_worker_step rcfg0 (.resp true) (.resp true) true behavTitleHit
        ⟨["/media/TV/Show/"], [taskMain], []⟩).1.history.head?
      = some ⟨"SONARR", "/media/TV/Show/", "ok", ""⟩ ∧
    find_plex_item (pyRstripSlash taskMain.mapped_folder) (behav0 1).rounds
      = .notFound ∧
    (sync_worker_step rcfg0 (.resp true) (.resp true) true behav0
        ⟨["/media/TV/Show/"], [taskMain], []⟩).1.history.head?
      = some ⟨"SONARR", "/media/TV/Show/", "ok", ""⟩ := by
  refine c5_reconciliation_never_fails rcfg0 (.resp true) (.resp true)
    behavTitleHit behav0 (behavTitleHit 1) (behav0 1) itemShow taskMain [] ["/media/TV/Show/"] []
    rfl rfl rfl rfl rfl rfl (by decide) rfl rfl ?_
  intro i _
  show find_round "/media/TV/Show" rb0 = none
  decide

/-- C7 (implicit): when the lazy connector cannot establish a connection
(`get_plex` yields none because the connect raised), the worker skips the
whole rescan-and-reconcile step: no scan attempt is made and the task is
finalized with status `ok` and an empty error message, its folder released
from the in-flight set. -/
theorem c7_no_connection_still_ok
    (rcfg : RcloneCfg) (fo ro : RcOutcome) (behav : Nat → AttemptBehavior)
    (task : SyncTask) (q : List SyncTask) (infl : List String) (hist : List HistoryEntry) :
    get_plex none true = none ∧
    (sync_worker_step rcfg fo ro (get_plex none true).isSome behav
        ⟨infl, task :: q, hist⟩).1.history.head?
      = some ⟨task.label, task.mapped_folder, "ok", ""⟩ ∧
    (sync_worker_step rcfg fo ro (get_plex none true).isSome behav
        ⟨infl, task :: q, hist⟩).2.scanAttempts = 0 ∧
    (sync_worker_step rcfg fo ro (get_plex none true).isSome behav
        ⟨infl, task :: q, hist⟩).1.in_flight
      = infl.erase task.mapped_folder := by
  refine ⟨rfl, ?_, ?_, ?_⟩ <;>
    simp [sync_worker_step, worker_begin, worker_finish, get_plex]

/-- C8: the cache-refresh step is advisory. (1) With the integration
disabled no call is issued at all. (2) When enabled with a remote URL and a
path not under the mount root, the target passed to the calls is the raw
path unchanged, and the first call issued is `forget` of that raw path.
(3) The worker's resulting state — status, history, in-flight set — is
independent of the outcomes of the rclone calls: errors and non-success
responses are swallowed. -/
theorem c8_cache_refresh_advisory :
    (∀ (url root : String) (fo ro : RcOutcome) (hp : String),
        rclone_vfs_refresh ⟨false, url, root⟩ fo ro hp = []) ∧
    (∀ (cfg : RcloneCfg) (fo ro : RcOutcome) (hp : String),
        cfg.use_rclone = true → cfg.rc_url ≠ "" →
        pyStartsWith (pyRstripSlash hp) (pyRstripSlash cfg.mount_root) = false →
        pyRstripSlash hp = hp →
        rclone_target cfg.mount_root hp = hp ∧
        (rclone_vfs_refresh cfg fo ro hp).head? = some (.forget hp)) ∧
    (∀ (rcfg : RcloneCfg) (fo1 ro1 fo2 ro2 : RcOutcome) (pa : Bool)
        (behav : Nat → AttemptBehavior) (st : SysState),
        (sync_worker_step rcfg fo1 ro1 pa behav st).1 =
        (sync_worker_step rcfg fo2 ro2 pa behav st).1) := by
  refine ⟨fun url root fo ro hp => rfl, ?_, ?_⟩
  · intro cfg fo ro hp henab hurl hstart hfix
    have hstart' : pyStartsWith hp (pyRstripSlash cfg.mount_root) = false :=
      hfix ▸ hstart
    have htgt : rclone_target cfg.mount_root hp = hp := by
      simp [rclone_target, hfix, hstart']
    refine ⟨htgt, ?_⟩
    rw [rclone_vfs_refresh]
    simp only [henab, hurl, htgt]
    cases fo <;> rfl
  · intro rcfg fo1 ro1 fo2 ro2 pa behav st
    cases st with
    | mk infl q hist =>
      cases q with
      | nil => rfl
      | cons t rest => rfl

/-- C8 witness: concrete evaluation of the disabled no-op, the pass-through
target, and outcome-independence under a raising forget call. -/
theorem c8_witness :
    rclone_vfs_refresh ⟨false, "http://rc", "/mnt"⟩ (.resp true) (.resp true) "/mnt/x" = [] ∧
    rclone_target "/mnt" "/other/x" = "/other/x" ∧
    (rclone_vfs_refresh ⟨true, "http://rc", "/mnt"⟩ (.exc "boom") (.resp true)
        "/other/x").head? = some (.forget "/other/x") ∧
    (sync_worker_step ⟨true, "http://rc", "/mnt"⟩ (.exc "boom") (.resp true) true behav0
        ⟨["/media/TV/Show/"], [taskMain], []⟩).1 =
    (sync_worker_step ⟨true, "http://rc", "/mnt"⟩ (.resp true) (.resp true) true behav0
        ⟨["/media/TV/Show/"], [taskMain], []⟩).1 := by
  have h2 := c8_cache_refresh_advisory.2.1 ⟨true, "http://rc", "/mnt"⟩
    (.exc "boom") (.resp true) "/other/x" rfl (by decide) (by decide) (by decide)
  exact ⟨c8_cache_refresh_advisory.1 "http://rc" "/mnt" (.resp true) (.resp true) "/mnt/x",
    h2.1, h2.2,
    c8_cache_refresh_advisory.2.2 ⟨true, "http://rc", "/mnt"⟩ (.exc "boom") (.resp true)
      (.resp true) (.resp true) true behav0 ⟨["/media/TV/Show/"], [taskMain], []⟩⟩

end PlexServarr
